import Mathlib

/-!
Shallow embedding of the diff/classification core of
`src/metrics_comparator.py` (a metrics-comparison tool), together with
theorems settling the specification claims about it.

Modelling conventions:
* JSON leaf values are `JValue` (rationals stand in for Python int/float;
  Python `bool` is a distinct constructor because `isinstance(True, int)`
  holds in Python, so booleans pass the numeric test).
* Python dicts are association lists; `dictGet` is `dict.get(key)`
  (first binding wins, `none` when absent).
* Python's `set(a) | set(b)` iterates in an arbitrary order; the claims
  proved here do not depend on that order, and we fix the deterministic
  order "keys of a, then keys of b not in a".
* Python `list.sort(key=..., reverse=...)` is a stable sort; we model it
  with `List.mergeSort le` where `le x y` means "x may come before y",
  i.e. `key x ≤ key y` (lexicographic on tuples), flipped for
  `reverse=True`.
-/

/-- A JSON-ish leaf value, as relevant to `compare_metrics`. -/
inductive JValue where
  | num (q : ℚ)
  | bool (b : Bool)
  | str (s : String)
  | null
deriving DecidableEq, Repr

/-- Python `isinstance(v, (int, float))`.  Note `bool` is a subclass of
`int` in Python, so booleans count as numeric. -/
def JValue.isNumeric : JValue → Bool
  | .num _ => true
  | .bool _ => true
  | _ => false

/-- The numeric content of a value that passed `isNumeric`
(`True == 1`, `False == 0` in Python). -/
def JValue.toRat : JValue → ℚ
  | .num q => q
  | .bool b => if b then 1 else 0
  | _ => 0

/-- A metric record: field name → value (Python dict as an alist). -/
abbrev MetricDict := List (String × JValue)

/-- The `aggregate_metrics` content of a snapshot:
metric name → metric record. -/
abbrev Snapshot := List (String × MetricDict)

/-- Python `dict.get(key)`: first binding for `key`, or `none`. -/
def dictGet {α : Type} (k : String) : List (String × α) → Option α
  | [] => none
  | (k2, v) :: rest => if k = k2 then some v else dictGet k rest

/-- The key list of an alist (Python `dict.keys()`). -/
def dictKeys {α : Type} (d : List (String × α)) : List String :=
  d.map Prod.fst

/-- `set(a) | set(b)`, in the fixed order "a then b-not-in-a". -/
def keyUnion (a b : List String) : List String :=
  a ++ b.filter (fun k => decide (k ∉ a))

/-- `ChangeType` enum of the source. -/
inductive ChangeType where
  | INCREASED
  | DECREASED
  | UNCHANGED
  | NEW
  | REMOVED
deriving DecidableEq, Repr

/-- The `.value` string of each enum member. -/
def ChangeType.value : ChangeType → String
  | .INCREASED => "increased"
  | .DECREASED => "decreased"
  | .UNCHANGED => "unchanged"
  | .NEW => "new"
  | .REMOVED => "removed"

/-- The `MetricChange` dataclass. -/
structure MetricChange where
  metric_name : String
  field_name : String
  old_value : Option ℚ
  new_value : Option ℚ
  change_type : ChangeType
  percentage_change : Option ℚ
deriving DecidableEq, Repr

/-- Constructing a `MetricChange`: `__post_init__` sets
`percentage_change` from the values when both are present and the old
value is nonzero; otherwise it keeps its default `None`. -/
def mkMetricChange (m f : String) (ov nv : Option ℚ) (ct : ChangeType) :
    MetricChange :=
  { metric_name := m
    field_name := f
    old_value := ov
    new_value := nv
    change_type := ct
    percentage_change :=
      match ov, nv with
      | some o, some n => if o ≠ 0 then some ((n - o) / o * 100) else none
      | _, _ => none }

/-- The configuration fields read by the core
(`MetricsComparator._load_config`). -/
structure Config where
  float_precision : ℚ
  min_percentage_change : ℚ
  ignore_fields : List String
  exclude_metrics : List String
  show_unchanged : Bool
  max_changes : Int
  sort_by : String
deriving DecidableEq, Repr

/-- All `fallback=` defaults of `_load_config`. -/
def defaultConfig : Config :=
  { float_precision := 1 / 10000000000
    min_percentage_change := 1 / 100
    ignore_fields := []
    exclude_metrics := []
    show_unchanged := false
    max_changes := 0
    sort_by := "metric_name" }

/-- Python `[f.strip() for f in raw.split(",") if f.strip()]`. -/
def splitCommaList (raw : String) : List String :=
  ((raw.splitOn ",").map String.trim).filter (fun s => decide (s ≠ ""))

/-- `MetricsComparator._load_config`: each option is taken from the
parsed config file when present, else from its `fallback=` default.
No value is validated or rejected. -/
def load_config (fp mpc : Option ℚ) (ignoreRaw excludeRaw : Option String)
    (showUnch : Option Bool) (maxCh : Option Int) (sortBy : Option String) :
    Config :=
  { float_precision := fp.getD (1 / 10000000000)
    min_percentage_change := mpc.getD (1 / 100)
    ignore_fields := splitCommaList (ignoreRaw.getD "")
    exclude_metrics := splitCommaList (excludeRaw.getD "")
    show_unchanged := showUnch.getD false
    max_changes := maxCh.getD 0
    sort_by := sortBy.getD "metric_name" }

/-- The numeric guard `isinstance(old_value, (int, float)) and
isinstance(new_value, (int, float))` applied to a `dict.get` result
(`isinstance(None, ...)` is false). -/
def optIsNumeric : Option JValue → Bool
  | some v => v.isNumeric
  | none => false

/-- Numeric content of an optional value (only used after the guard). -/
def optRat : Option JValue → ℚ
  | some v => v.toRat
  | none => 0

/-- The classification chain of `compare_metrics` for a field of a
metric present in both snapshots (source lines 188-197).  The first two
branches mirror `if old_value is None` / `elif new_value is None` of the
source; they are unreachable there because the numeric guard already
skipped any field missing on one side. -/
def classify (prec : ℚ) (old_value new_value : Option JValue) : ChangeType :=
  if old_value = none then .NEW
  else if new_value = none then .REMOVED
  else if |optRat new_value - optRat old_value| < prec then .UNCHANGED
  else if optRat new_value > optRat old_value then .INCREASED
  else .DECREASED

/-- The inner loop of `compare_metrics` for a metric present in both
snapshots: union of field names, `ignore_fields` check, numeric guard
(skipping any field where either side is missing or non-numeric), then
classification and record construction. -/
def compare_fields (cfg : Config) (metric_name : String)
    (old_metric new_metric : MetricDict) : List MetricChange :=
  (keyUnion (dictKeys old_metric) (dictKeys new_metric)).filterMap
    (fun field_name =>
      if field_name ∈ cfg.ignore_fields then none
      else if optIsNumeric (dictGet field_name old_metric) &&
          optIsNumeric (dictGet field_name new_metric) then
        some (mkMetricChange metric_name field_name
          ((dictGet field_name old_metric).map JValue.toRat)
          ((dictGet field_name new_metric).map JValue.toRat)
          (classify cfg.float_precision (dictGet field_name old_metric)
            (dictGet field_name new_metric)))
      else none)

/-- The per-metric body of `compare_metrics`: `exclude_metrics` check,
then the three branches (metric only in new → `NEW` records for numeric
fields; only in old → `REMOVED`; in both → `compare_fields`).  Note the
one-sided branches do not consult `ignore_fields`. -/
def compare_metric (cfg : Config) (old_metrics new_metrics : Snapshot)
    (metric_name : String) : List MetricChange :=
  if metric_name ∈ cfg.exclude_metrics then []
  else if metric_name ∉ dictKeys old_metrics then
    ((dictGet metric_name new_metrics).getD []).filterMap (fun p =>
      if p.2.isNumeric then
        some (mkMetricChange metric_name p.1 none (some p.2.toRat) .NEW)
      else none)
  else if metric_name ∉ dictKeys new_metrics then
    ((dictGet metric_name old_metrics).getD []).filterMap (fun p =>
      if p.2.isNumeric then
        some (mkMetricChange metric_name p.1 (some p.2.toRat) none .REMOVED)
      else none)
  else
    compare_fields cfg metric_name ((dictGet metric_name old_metrics).getD [])
      ((dictGet metric_name new_metrics).getD [])

/-- `MetricsComparator.compare_metrics`: walk the union of metric names
and collect the per-metric change lists. -/
def compare_metrics (cfg : Config) (old_metrics new_metrics : Snapshot) :
    List MetricChange :=
  (keyUnion (dictKeys old_metrics) (dictKeys new_metrics)).flatMap
    (compare_metric cfg old_metrics new_metrics)

/-- Sort key component `abs(x.percentage_change) if ... is not None
else 0` of the `percentage` sort. -/
def percKey (c : MetricChange) : ℚ :=
  match c.percentage_change with
  | some p => |p|
  | none => 0

/-- Ascending lexicographic comparison of `(String, String)` sort keys. -/
def strPairLe (p q : String × String) : Bool :=
  decide (p.1 < q.1 ∨ (p.1 = q.1 ∧ p.2 ≤ q.2))

/-- Ascending lexicographic comparison of `(ℚ, String)` sort keys. -/
def ratStrLe (p q : ℚ × String) : Bool :=
  decide (p.1 < q.1 ∨ (p.1 = q.1 ∧ p.2 ≤ q.2))

/-- `sort(key=lambda x: (x.metric_name, x.field_name))`. -/
def metricNameLe (a b : MetricChange) : Bool :=
  strPairLe (a.metric_name, a.field_name) (b.metric_name, b.field_name)

/-- `sort(key=lambda x: (x.field_name, x.metric_name))`. -/
def fieldNameLe (a b : MetricChange) : Bool :=
  strPairLe (a.field_name, a.metric_name) (b.field_name, b.metric_name)

/-- `sort(key=lambda x: (x.change_type.value, x.metric_name))`. -/
def changeTypeLe (a b : MetricChange) : Bool :=
  strPairLe (a.change_type.value, a.metric_name)
    (b.change_type.value, b.metric_name)

/-- `sort(key=lambda x: (abs(pc) or 0, x.metric_name), reverse=True)`:
`a` may come before `b` iff `b`'s key tuple is lexicographically ≤
`a`'s (Python's stable reverse sort). -/
def percDescLe (a b : MetricChange) : Bool :=
  ratStrLe (percKey b, b.metric_name) (percKey a, a.metric_name)

/-- Filtering step of `create_detailed_table`: `UNCHANGED` records are
dropped unless `show_unchanged`. -/
def filter_unchanged (changes : List MetricChange) (show_unchanged : Bool) :
    List MetricChange :=
  if show_unchanged then changes
  else changes.filter (fun c => decide (c.change_type ≠ .UNCHANGED))

/-- Sorting step of `create_detailed_table`: the `elif` chain on
`cfg.sort_by`, defaulting to the `metric_name` order. -/
def sort_changes (cfg : Config) (l : List MetricChange) : List MetricChange :=
  if cfg.sort_by = "field_name" then l.mergeSort fieldNameLe
  else if cfg.sort_by = "change_type" then l.mergeSort changeTypeLe
  else if cfg.sort_by = "percentage" then l.mergeSort percDescLe
  else l.mergeSort metricNameLe

/-- Limiting step of `create_detailed_table`:
`filtered_changes[: max_changes]` when `max_changes > 0`. -/
def limit_changes (cfg : Config) (l : List MetricChange) : List MetricChange :=
  if cfg.max_changes > 0 then l.take cfg.max_changes.toNat else l

/-- The filter / sort / truncate pipeline of
`MetricsComparator.create_detailed_table` (the rendering of rows into a
table is presentation and not modelled). -/
def create_detailed_table (cfg : Config) (changes : List MetricChange)
    (show_unchanged : Bool) : List MetricChange :=
  limit_changes cfg (sort_changes cfg (filter_unchanged changes show_unchanged))

/-- `MetricsComparator.format_percentage_change`, reduced to the
decision it makes: `none` models returning the empty `Text` (absent
percentage, or magnitude below `min_percentage_change`), `some p` models
rendering the percentage `p`. -/
def format_percentage_change (cfg : Config) (c : MetricChange) : Option ℚ :=
  match c.percentage_change with
  | none => none
  | some p => if |p| < cfg.min_percentage_change then none else some p

/-- Python's numeric reading of a boolean (`True == 1`, `False == 0`),
as a value-level substitution: used to state that `compare_metrics`
treats a boolean field exactly like the corresponding number. -/
def JValue.boolToNum : JValue → JValue
  | .bool b => .num (if b then 1 else 0)
  | v => v

/-- Replace every boolean field value of a metric record by its number. -/
def mapMetricVals (d : MetricDict) : MetricDict :=
  d.map (fun p => (p.1, p.2.boolToNum))

/-- Replace every boolean field value of a snapshot by its number. -/
def mapSnapshotVals (s : Snapshot) : Snapshot :=
  s.map (fun p => (p.1, mapMetricVals p.2))

example :
    compare_metrics defaultConfig
      [("latency", [("p50", .num 10), ("p99", .num 50)])]
      [("latency", [("p50", .num 12), ("p99", .num 50)]),
       ("errors", [("count", .num 3)])] =
    [mkMetricChange "latency" "p50" (some 10) (some 12) .INCREASED,
     mkMetricChange "latency" "p99" (some 50) (some 50) .UNCHANGED,
     mkMetricChange "errors" "count" none (some 3) .NEW] := by
  with_unfolding_all decide

/-! ### Helper lemmas -/

theorem dictGet_mem_keys {α : Type} {k : String} {d : List (String × α)}
    (h : k ∈ dictKeys d) : ∃ v, dictGet k d = some v := by
  induction d with
  | nil => simp [dictKeys] at h
  | cons p rest ih =>
    obtain ⟨k2, v⟩ := p
    by_cases hk : k = k2
    · exact ⟨v, by simp [dictGet, hk]⟩
    · have hmem : k ∈ dictKeys rest := by
        simp only [dictKeys, List.map_cons, List.mem_cons] at h
        rcases h with h | h
        · exact absurd h hk
        · simpa [dictKeys] using h
      obtain ⟨w, hw⟩ := ih hmem
      exact ⟨w, by simp [dictGet, hk, hw]⟩

theorem optIsNumeric_some {o : Option JValue} (h : optIsNumeric o = true) :
    ∃ v, o = some v ∧ v.isNumeric = true := by
  cases o with
  | none => simp [optIsNumeric] at h
  | some v => exact ⟨v, rfl, h⟩

/-- Every element of `compare_metric cfg om nm m` is a `mkMetricChange`
for metric `m`, has at least one side present, its metric is not
excluded, and — when `m` is a key of both snapshots — its field is not
ignored. -/
theorem mem_compare_metric {cfg : Config} {om nm : Snapshot} {m : String}
    {c : MetricChange} (h : c ∈ compare_metric cfg om nm m) :
    m ∉ cfg.exclude_metrics ∧
    ∃ f ov nv ct, c = mkMetricChange m f ov nv ct ∧
      ¬ (ov = none ∧ nv = none) ∧
      (m ∈ dictKeys om → m ∈ dictKeys nm → f ∉ cfg.ignore_fields) := by
  unfold compare_metric at h
  split at h
  · exact absurd h (List.not_mem_nil c)
  next hex =>
    refine ⟨hex, ?_⟩
    split at h
    next hom =>
      rw [List.mem_filterMap] at h
      obtain ⟨p, _, heq⟩ := h
      split at heq
      · exact ⟨p.1, none, some p.2.toRat, .NEW, (Option.some.inj heq).symm,
          by simp, fun hmo _ => absurd hmo hom⟩
      · exact absurd heq (by simp)
    next hom =>
      split at h
      next hnm =>
        rw [List.mem_filterMap] at h
        obtain ⟨p, _, heq⟩ := h
        split at heq
        · exact ⟨p.1, some p.2.toRat, none, .REMOVED, (Option.some.inj heq).symm,
            by simp, fun _ hmn => absurd hmn hnm⟩
        · exact absurd heq (by simp)
      next hnm =>
        unfold compare_fields at h
        rw [List.mem_filterMap] at h
        obtain ⟨f, _, heq⟩ := h
        split at heq
        next hig => exact absurd heq (by simp)
        next hig =>
          split at heq
          next hnum =>
            rw [Bool.and_eq_true] at hnum
            obtain ⟨v1, hv1, _⟩ := optIsNumeric_some hnum.1
            refine ⟨f, _, _, _, (Option.some.inj heq).symm, ?_, fun _ _ => hig⟩
            rw [hv1]
            simp
          next => exact absurd heq (by simp)

/-- Every element of `compare_metrics cfg om nm` arises from
`compare_metric` at some metric name in the key union. -/
theorem mem_compare_metrics {cfg : Config} {om nm : Snapshot}
    {c : MetricChange} (h : c ∈ compare_metrics cfg om nm) :
    ∃ m ∈ keyUnion (dictKeys om) (dictKeys nm),
      c ∈ compare_metric cfg om nm m := by
  unfold compare_metrics at h
  exact List.mem_flatMap.mp h

/-! ### Claim theorems -/

/-- C1: the claim says that for a metric present in both snapshots, a field
present and numeric on exactly one side is emitted as `New`/`Removed`
(Classifier rules 1-2).  The code does not do this: the numeric guard skips
any field whose missing side is `None`, so no record is emitted at all, and
the `old_value is None` / `new_value is None` branches are unreachable.  This
theorem evaluates the embedded code at the failing inputs (both directions)
and shows the classifier itself would have said `NEW`. -/
theorem claim_C1_failing_eval :
    compare_metrics defaultConfig [("m", [])] [("m", [("f", .num 3)])] = [] ∧
    compare_metrics defaultConfig [("m", [("f", .num 3)])] [("m", [])] = [] ∧
    classify defaultConfig.float_precision none (some (.num 3)) = .NEW := by
  refine ⟨?_, ?_, ?_⟩ <;> with_unfolding_all decide

/-- C2 counterexample: with `ignore_fields = ["f"]`, a metric present only in
the new snapshot still yields a record whose `field_name` is `"f"`: the
one-sided branches of `compare_metrics` never consult `ignore_fields`, so the
exclusion is not exhaustive over metrics present in only one snapshot. -/
theorem claim_C2_counterexample :
    (compare_metrics { defaultConfig with ignore_fields := ["f"] } []
        [("m", [("f", .num 1)])]).map MetricChange.field_name = ["f"] ∧
    "f" ∈ ({ defaultConfig with ignore_fields := ["f"] } : Config).ignore_fields := by
  exact ⟨by with_unfolding_all decide, by decide⟩

/-- C2 (amended): no emitted record's `metric_name` is in `exclude_metrics`,
and for a metric present in both snapshots no emitted record's `field_name`
is in `ignore_fields`; the `ignore_fields` exclusion does not extend to
metrics present in only one of the two snapshots. -/
theorem claim_C2_amended (cfg : Config) (om nm : Snapshot) (c : MetricChange)
    (h : c ∈ compare_metrics cfg om nm) :
    c.metric_name ∉ cfg.exclude_metrics ∧
    (c.metric_name ∈ dictKeys om → c.metric_name ∈ dictKeys nm →
      c.field_name ∉ cfg.ignore_fields) := by
  obtain ⟨m, _, hm⟩ := mem_compare_metrics h
  obtain ⟨hex, f, ov, nv, ct, hc, _, hig⟩ := mem_compare_metric hm
  subst hc
  exact ⟨hex, hig⟩

/-- Witness for C2 (amended): the theorem applied at a concrete input. -/
theorem claim_C2_amended_witness :
    mkMetricChange "m" "f" none (some 1) .NEW ∈
      compare_metrics defaultConfig [] [("m", [("f", .num 1)])] ∧
    (mkMetricChange "m" "f" none (some 1) .NEW).metric_name ∉
      defaultConfig.exclude_metrics := by
  have hmem : mkMetricChange "m" "f" none (some 1) .NEW ∈
      compare_metrics defaultConfig [] [("m", [("f", .num 1)])] := by
    with_unfolding_all decide
  exact ⟨hmem, (claim_C2_amended _ _ _ _ hmem).1⟩

/-- C4: for every record emitted by `compare_metrics`,
`percentage_change = (new - old) / old * 100` when both values are present
and the old value is nonzero, and it is absent when the old value is `0` or
either value is absent. -/
theorem claim_C4_percentage (cfg : Config) (om nm : Snapshot)
    (c : MetricChange) (h : c ∈ compare_metrics cfg om nm) :
    (∀ o n, c.old_value = some o → c.new_value = some n → o ≠ 0 →
      c.percentage_change = some ((n - o) / o * 100)) ∧
    (c.old_value = some 0 ∨ c.old_value = none ∨ c.new_value = none →
      c.percentage_change = none) := by
  obtain ⟨m, _, hm⟩ := mem_compare_metrics h
  obtain ⟨_, f, ov, nv, ct, hc, _, _⟩ := mem_compare_metric hm
  subst hc
  constructor
  · intro o n ho hn hne
    cases ov <;> cases nv <;> simp_all [mkMetricChange]
  · intro h0
    cases ov with
    | none => cases nv <;> simp [mkMetricChange]
    | some o =>
      cases nv with
      | none => simp [mkMetricChange]
      | some n =>
        rcases h0 with h0 | h0 | h0
        · have : o = (0 : ℚ) := by simpa [mkMetricChange] using h0
          simp [mkMetricChange, this]
        · simp [mkMetricChange] at h0
        · simp [mkMetricChange] at h0

/-- Witness for C4: the theorem applied at a concrete input. -/
theorem claim_C4_percentage_witness :
    mkMetricChange "m" "f" none (some 1) .NEW ∈
      compare_metrics defaultConfig [] [("m", [("f", .num 1)])] ∧
    (mkMetricChange "m" "f" none (some 1) .NEW).percentage_change = none := by
  have hmem : mkMetricChange "m" "f" none (some 1) .NEW ∈
      compare_metrics defaultConfig [] [("m", [("f", .num 1)])] := by
    with_unfolding_all decide
  exact ⟨hmem,
    (claim_C4_percentage _ _ _ _ hmem).2 (Or.inr (Or.inl rfl))⟩

/-- C8: `compare_metrics` never emits a record whose `old_value` and
`new_value` are both absent. -/
theorem claim_C8_not_both_absent (cfg : Config) (om nm : Snapshot)
    (c : MetricChange) (h : c ∈ compare_metrics cfg om nm) :
    ¬ (c.old_value = none ∧ c.new_value = none) := by
  obtain ⟨m, _, hm⟩ := mem_compare_metrics h
  obtain ⟨_, f, ov, nv, ct, hc, hnn, _⟩ := mem_compare_metric hm
  subst hc
  exact hnn

/-- Witness for C8: the theorem applied at a concrete input. -/
theorem claim_C8_not_both_absent_witness :
    mkMetricChange "m" "f" none (some 1) .NEW ∈
      compare_metrics defaultConfig [] [("m", [("f", .num 1)])] ∧
    ¬ ((mkMetricChange "m" "f" none (some 1) .NEW).old_value = none ∧
      (mkMetricChange "m" "f" none (some 1) .NEW).new_value = none) := by
  have hmem : mkMetricChange "m" "f" none (some 1) .NEW ∈
      compare_metrics defaultConfig [] [("m", [("f", .num 1)])] := by
    with_unfolding_all decide
  exact ⟨hmem, claim_C8_not_both_absent _ _ _ _ hmem⟩

/-- C9: two runs of the diff that differ only in the configured
`min_percentage_change` produce identical change lists, and the
filter/sort/truncate pipeline is equally unaffected: the threshold only
suppresses the display of a percentage. -/
theorem claim_C9_min_percentage_display_only :
    ∀ (cfg : Config) (q : ℚ) (om nm : Snapshot) (l : List MetricChange)
      (su : Bool),
      compare_metrics { cfg with min_percentage_change := q } om nm =
        compare_metrics cfg om nm ∧
      create_detailed_table { cfg with min_percentage_change := q } l su =
        create_detailed_table cfg l su := by
  intro cfg q om nm l su
  cases cfg
  exact ⟨rfl, rfl⟩

/-- C3: for a field whose old and new values are both present and numeric,
the classifier follows the ordered rules: `UNCHANGED` when
`|new - old| < float_precision`; otherwise `INCREASED` when `new > old`;
otherwise `DECREASED`, and in that remaining case (for a positive
precision) `new < old` indeed holds. -/
theorem claim_C3_ordered_rules (prec o n : ℚ) (hprec : 0 < prec) :
    (|n - o| < prec →
      classify prec (some (.num o)) (some (.num n)) = .UNCHANGED) ∧
    (¬ |n - o| < prec → o < n →
      classify prec (some (.num o)) (some (.num n)) = .INCREASED) ∧
    (¬ |n - o| < prec → ¬ o < n →
      classify prec (some (.num o)) (some (.num n)) = .DECREASED ∧ n < o) := by
  refine ⟨?_, ?_, ?_⟩
  · intro h
    simp [classify, optRat, JValue.toRat, h]
  · intro h1 h2
    simp [classify, optRat, JValue.toRat, h1, h2]
  · intro h1 h2
    have hne : n ≠ o := by
      intro he
      apply h1
      rw [he]
      simpa using hprec
    exact ⟨by simp [classify, optRat, JValue.toRat, h1, h2],
      lt_of_le_of_ne (not_lt.mp h2) hne⟩

/-- Witness for C3: the theorem applied at `prec = 1`, `o = 0`, `n = 5`. -/
theorem claim_C3_ordered_rules_witness :
    (0 : ℚ) < 1 ∧
    ((|(5 : ℚ) - 0| < 1 →
      classify 1 (some (.num 0)) (some (.num 5)) = .UNCHANGED) ∧
    (¬ |(5 : ℚ) - 0| < 1 → (0 : ℚ) < 5 →
      classify 1 (some (.num 0)) (some (.num 5)) = .INCREASED) ∧
    (¬ |(5 : ℚ) - 0| < 1 → ¬ (0 : ℚ) < 5 →
      classify 1 (some (.num 0)) (some (.num 5)) = .DECREASED ∧ (5 : ℚ) < 0)) :=
  ⟨by decide, claim_C3_ordered_rules 1 0 5 (by decide)⟩

/-- C6: the claim says a negative `float_precision` or
`min_percentage_change` is rejected at construction time.  The code has no
such validation: `_load_config` stores whatever the configuration supplies.
Counterexample: negative values are accepted verbatim, and the negative
precision propagates into the classifier, where a field with identical old
and new values is then classified `DECREASED`. -/
theorem claim_C6_counterexample :
    (load_config (some (-1)) (some (-2)) none none none none none).float_precision
      = -1 ∧
    (load_config (some (-1)) (some (-2)) none none none none none).min_percentage_change
      = -2 ∧
    classify (load_config (some (-1)) (some (-2)) none none none none
        none).float_precision (some (.num 1)) (some (.num 1)) = .DECREASED := by
  refine ⟨by with_unfolding_all decide, by with_unfolding_all decide,
    by with_unfolding_all decide⟩

/-- C6 (amended): constructing a configuration with a negative
`float_precision` or `min_percentage_change` does not fail: the negative
values are accepted at construction time, stored unchanged, and propagated
into the comparison algorithm, where a negative precision makes the
classifier label even identical values `DECREASED`. -/
theorem claim_C6_amended (fp mpc : ℚ) (hfp : fp < 0) (hmpc : mpc < 0) :
    (load_config (some fp) (some mpc) none none none none none).float_precision
      = fp ∧
    (load_config (some fp) (some mpc) none none none none none).min_percentage_change
      = mpc ∧
    ∀ q : ℚ,
      classify (load_config (some fp) (some mpc) none none none none
          none).float_precision (some (.num q)) (some (.num q)) = .DECREASED := by
  refine ⟨rfl, rfl, fun q => ?_⟩
  simp [classify, optRat, JValue.toRat]
  show fp ≤ 0
  exact le_of_lt hfp

/-- Witness for C6 (amended): the theorem applied at `fp = -1`,
`mpc = -2`. -/
theorem claim_C6_amended_witness :
    (-1 : ℚ) < 0 ∧ (-2 : ℚ) < 0 ∧
    (load_config (some (-1)) (some (-2)) none none none none none).float_precision
      = -1 := by
  refine ⟨by with_unfolding_all decide, by with_unfolding_all decide, ?_⟩
  exact (claim_C6_amended (-1) (-2) (by with_unfolding_all decide)
    (by with_unfolding_all decide)).1

/-- The key union of a key list with itself is that key list. -/
theorem keyUnion_self (a : List String) : keyUnion a a = a := by
  unfold keyUnion
  have : a.filter (fun k => decide (k ∉ a)) = [] := by
    rw [List.filter_eq_nil_iff]
    intro k hk
    simp [hk]
  rw [this, List.append_nil]

/-- Comparing a metric record against itself yields only `UNCHANGED`
records (for any positive precision). -/
theorem compare_fields_self_unchanged {cfg : Config} {m : String}
    {d : MetricDict} (hprec : 0 < cfg.float_precision) :
    ∀ c ∈ compare_fields cfg m d d, c.change_type = .UNCHANGED := by
  intro c hc
  unfold compare_fields at hc
  rw [List.mem_filterMap] at hc
  obtain ⟨f, _, heq⟩ := hc
  split at heq
  · exact absurd heq (by simp)
  · split at heq
    next hnum =>
      rw [Bool.and_eq_true] at hnum
      obtain ⟨v, hv, _⟩ := optIsNumeric_some hnum.1
      have hct : c.change_type =
          classify cfg.float_precision (dictGet f d) (dictGet f d) := by
        rw [← Option.some.inj heq]
        rfl
      rw [hct, hv]
      simp [classify, optRat, hprec]
    next => exact absurd heq (by simp)

/-- C7: comparing a snapshot against itself under the default
configuration yields only `UNCHANGED` records, and the final list after
filtering with `show_unchanged = false` (then sorting and limiting) is
empty. -/
theorem claim_C7_self_compare (s : Snapshot) :
    (∀ c ∈ compare_metrics defaultConfig s s, c.change_type = .UNCHANGED) ∧
    create_detailed_table defaultConfig (compare_metrics defaultConfig s s)
      false = [] := by
  have hall : ∀ c ∈ compare_metrics defaultConfig s s,
      c.change_type = .UNCHANGED := by
    intro c hc
    obtain ⟨m, hmu, hm⟩ := mem_compare_metrics hc
    rw [keyUnion_self] at hmu
    unfold compare_metric at hm
    rw [if_neg (by simp [defaultConfig])] at hm
    rw [if_neg (by simpa using hmu)] at hm
    rw [if_neg (by simpa using hmu)] at hm
    exact compare_fields_self_unchanged (by norm_num [defaultConfig]) c hm
  refine ⟨hall, ?_⟩
  have hfil : filter_unchanged (compare_metrics defaultConfig s s) false = [] := by
    unfold filter_unchanged
    rw [if_neg (by simp)]
    rw [List.filter_eq_nil_iff]
    intro c hc
    simp [hall c hc]
  rw [create_detailed_table, hfil]
  simp [sort_changes, limit_changes, defaultConfig]

/-- Witness for C7: the theorem applied at a concrete snapshot. -/
theorem claim_C7_self_compare_witness :
    create_detailed_table defaultConfig
      (compare_metrics defaultConfig [("m", [("f", .num 2)])]
        [("m", [("f", .num 2)])]) false = [] :=
  (claim_C7_self_compare [("m", [("f", .num 2)])]).2

/-- Transitivity of the ascending `(ℚ, String)` lexicographic key
comparison used by the `percentage` sort. -/
theorem ratStrLe_trans {p q r : ℚ × String} (h1 : ratStrLe p q = true)
    (h2 : ratStrLe q r = true) : ratStrLe p r = true := by
  simp only [ratStrLe, decide_eq_true_eq] at h1 h2 ⊢
  rcases h1 with h1 | ⟨h1e, h1s⟩
  · rcases h2 with h2 | ⟨h2e, h2s⟩
    · exact Or.inl (h1.trans h2)
    · exact Or.inl (h2e ▸ h1)
  · rcases h2 with h2 | ⟨h2e, h2s⟩
    · exact Or.inl (lt_of_eq_of_lt h1e h2)
    · exact Or.inr ⟨h1e.trans h2e, h1s.trans h2s⟩

/-- Totality of the ascending `(ℚ, String)` lexicographic key
comparison. -/
theorem ratStrLe_total (p q : ℚ × String) :
    (ratStrLe p q || ratStrLe q p) = true := by
  rw [Bool.or_eq_true]
  simp only [ratStrLe, decide_eq_true_eq]
  rcases lt_trichotomy p.1 q.1 with h | h | h
  · exact Or.inl (Or.inl h)
  · rcases le_total p.2 q.2 with hs | hs
    · exact Or.inl (Or.inr ⟨h, hs⟩)
    · exact Or.inr (Or.inr ⟨h.symm, hs⟩)
  · exact Or.inr (Or.inl h)

/-- C5 counterexample: under `sort_by = "percentage"`, two records with
equal (absent, hence `0`) percentage magnitudes come out ordered
DESCENDING by `metric_name` — `"b"` before `"a"` — because Python's
`reverse=True` reverses the whole key tuple, including the tie-break.
The claim's ascending tie-break would give `"a"` before `"b"`. -/
theorem claim_C5_counterexample :
    create_detailed_table { defaultConfig with sort_by := "percentage" }
      [mkMetricChange "a" "x" none (some 1) .NEW,
       mkMetricChange "b" "x" none (some 1) .NEW] true =
      [mkMetricChange "b" "x" none (some 1) .NEW,
       mkMetricChange "a" "x" none (some 1) .NEW] ∧
    percKey (mkMetricChange "a" "x" none (some 1) .NEW) =
      percKey (mkMetricChange "b" "x" none (some 1) .NEW) ∧
    (mkMetricChange "a" "x" none (some 1) .NEW).metric_name <
      (mkMetricChange "b" "x" none (some 1) .NEW).metric_name := by
  refine ⟨?_, by decide, ?_⟩
  · simp [create_detailed_table, filter_unchanged, sort_changes, limit_changes,
      defaultConfig, List.mergeSort, List.merge, percDescLe, ratStrLe, percKey,
      mkMetricChange] <;> decide
  · show ("a" : String) < "b"
    simp [String.lt_iff] <;> decide

/-- C5 (amended): with `sort_by = "percentage"` and no truncation, the
final list is a permutation of the filtered records, ordered descending
by `abs(percentage_change)` (absent percentages treated as `0`), with
ties broken DESCENDING (not ascending) by `metric_name`. -/
theorem claim_C5_amended (cfg : Config) (l : List MetricChange) (su : Bool)
    (h1 : cfg.sort_by = "percentage") (h2 : ¬ cfg.max_changes > 0) :
    (create_detailed_table cfg l su).Pairwise
      (fun x y => percKey y < percKey x ∨
        (percKey y = percKey x ∧ y.metric_name ≤ x.metric_name)) ∧
    (create_detailed_table cfg l su).Perm (filter_unchanged l su) := by
  have hsort : create_detailed_table cfg l su =
      (filter_unchanged l su).mergeSort percDescLe := by
    unfold create_detailed_table sort_changes limit_changes
    rw [h1]
    simp [h2]
  rw [hsort]
  constructor
  · have hp := List.sorted_mergeSort
      (fun a b c (hab : percDescLe a b = true) (hbc : percDescLe b c = true) =>
        ratStrLe_trans hbc hab)
      (fun a b => ratStrLe_total (percKey b, b.metric_name)
        (percKey a, a.metric_name))
      (filter_unchanged l su)
    refine hp.imp ?_
    intro a b hab
    simpa [percDescLe, ratStrLe] using hab
  · exact List.mergeSort_perm (filter_unchanged l su) percDescLe

/-- Witness for C5 (amended): the theorem applied at a concrete
configuration and record list. -/
theorem claim_C5_amended_witness :
    ({ defaultConfig with sort_by := "percentage" } : Config).sort_by
      = "percentage" ∧
    ¬ ({ defaultConfig with sort_by := "percentage" } : Config).max_changes > 0 ∧
    (create_detailed_table { defaultConfig with sort_by := "percentage" }
      [mkMetricChange "a" "x" none (some 1) .NEW] true).Perm
      (filter_unchanged [mkMetricChange "a" "x" none (some 1) .NEW] true) :=
  ⟨rfl, by decide,
    (claim_C5_amended { defaultConfig with sort_by := "percentage" }
      [mkMetricChange "a" "x" none (some 1) .NEW] true rfl (by decide)).2⟩

/-- `dict.get` commutes with mapping a function over the values. -/
theorem dictGet_mapVals {α β : Type} (g : α → β) (k : String)
    (d : List (String × α)) :
    dictGet k (d.map (fun p => (p.1, g p.2))) = (dictGet k d).map g := by
  induction d with
  | nil => rfl
  | cons p rest ih =>
    obtain ⟨k2, v⟩ := p
    by_cases hk : k = k2 <;> simp [dictGet, hk, ih]

/-- Mapping a function over the values leaves the key list unchanged. -/
theorem dictKeys_mapVals {α β : Type} (g : α → β) (d : List (String × α)) :
    dictKeys (d.map (fun p => (p.1, g p.2))) = dictKeys d := by
  simp [dictKeys, List.map_map, Function.comp]

theorem boolToNum_isNumeric (v : JValue) :
    v.boolToNum.isNumeric = v.isNumeric := by
  cases v <;> rfl

theorem boolToNum_toRat (v : JValue) : v.boolToNum.toRat = v.toRat := by
  cases v with
  | bool b => cases b <;> rfl
  | _ => rfl

theorem optIsNumeric_mapBool (o : Option JValue) :
    optIsNumeric (o.map JValue.boolToNum) = optIsNumeric o := by
  cases o <;> simp [optIsNumeric, boolToNum_isNumeric]

theorem map_toRat_mapBool (o : Option JValue) :
    (o.map JValue.boolToNum).map JValue.toRat = o.map JValue.toRat := by
  cases o <;> simp [boolToNum_toRat]

/-- The classifier is unchanged by replacing booleans with their numeric
reading. -/
theorem classify_mapBool (prec : ℚ) (o n : Option JValue) :
    classify prec (o.map JValue.boolToNum) (n.map JValue.boolToNum) =
      classify prec o n := by
  cases o <;> cases n <;> simp [classify, optRat, boolToNum_toRat]

/-- `compare_fields` is unchanged by replacing booleans with their
numeric reading in both metric records. -/
theorem compare_fields_mapVals (cfg : Config) (m : String)
    (od nd : MetricDict) :
    compare_fields cfg m (mapMetricVals od) (mapMetricVals nd) =
      compare_fields cfg m od nd := by
  unfold compare_fields mapMetricVals
  rw [dictKeys_mapVals, dictKeys_mapVals]
  congr 1
  funext f
  rw [dictGet_mapVals, dictGet_mapVals, optIsNumeric_mapBool,
    optIsNumeric_mapBool, map_toRat_mapBool, map_toRat_mapBool,
    classify_mapBool]

/-- `compare_metric` is unchanged by replacing booleans with their
numeric reading in both snapshots. -/
theorem compare_metric_mapVals (cfg : Config) (om nm : Snapshot)
    (m : String) :
    compare_metric cfg (mapSnapshotVals om) (mapSnapshotVals nm) m =
      compare_metric cfg om nm m := by
  have hgetD : ∀ o : Option MetricDict,
      (o.map mapMetricVals).getD [] = mapMetricVals (o.getD []) := by
    intro o
    cases o <;> rfl
  have hnew : ∀ d : MetricDict,
      (mapMetricVals d).filterMap (fun p =>
        if p.2.isNumeric then
          some (mkMetricChange m p.1 none (some p.2.toRat) .NEW)
        else none) =
      d.filterMap (fun p =>
        if p.2.isNumeric then
          some (mkMetricChange m p.1 none (some p.2.toRat) .NEW)
        else none) := by
    intro d
    unfold mapMetricVals
    rw [List.filterMap_map]
    congr 1
    funext p
    simp [Function.comp, boolToNum_isNumeric, boolToNum_toRat]
  have hrem : ∀ d : MetricDict,
      (mapMetricVals d).filterMap (fun p =>
        if p.2.isNumeric then
          some (mkMetricChange m p.1 (some p.2.toRat) none .REMOVED)
        else none) =
      d.filterMap (fun p =>
        if p.2.isNumeric then
          some (mkMetricChange m p.1 (some p.2.toRat) none .REMOVED)
        else none) := by
    intro d
    unfold mapMetricVals
    rw [List.filterMap_map]
    congr 1
    funext p
    simp [Function.comp, boolToNum_isNumeric, boolToNum_toRat]
  unfold compare_metric mapSnapshotVals
  rw [dictKeys_mapVals, dictKeys_mapVals, dictGet_mapVals, dictGet_mapVals,
    hgetD, hgetD, hnew, hrem, compare_fields_mapVals]

/-- C10: a boolean field value is treated as numeric by the diff
(`isinstance(True, int)` holds in Python), and is emitted and classified
exactly as if it were the number `1` (`True`) or `0` (`False`): replacing
every boolean by its numeric reading changes nothing, and a concrete
boolean field is emitted (not skipped) with values `0` and `1`. -/
theorem claim_C10_bool_numeric :
    (∀ (cfg : Config) (om nm : Snapshot),
      compare_metrics cfg (mapSnapshotVals om) (mapSnapshotVals nm) =
        compare_metrics cfg om nm) ∧
    compare_metrics defaultConfig [("m", [("f", .bool false)])]
      [("m", [("f", .bool true)])] =
      [mkMetricChange "m" "f" (some 0) (some 1) .INCREASED] := by
  constructor
  · intro cfg om nm
    unfold compare_metrics
    have hk : ∀ s : Snapshot, dictKeys (mapSnapshotVals s) = dictKeys s := by
      intro s
      unfold mapSnapshotVals
      exact dictKeys_mapVals _ _
    rw [hk, hk]
    congr 1
    funext m
    exact compare_metric_mapVals cfg om nm m
  · with_unfolding_all decide
